import Mathlib

/-!
Verification of the WorkerView component
(`src/www/base/src/views/WorkerView/WorkerView.tsx`).

Shallow embedding: the component's local state, event handlers, query
parameter construction and render composition are translated into plain
Lean definitions; the reactive framework (query execution, routing) is
represented by explicit data (query-state records, registration lists).
JavaScript numbers that may be `NaN` are modelled as `Option Int`
(`none` is `NaN`).
-/

/-- A Worker entity, identified by its numeric id (the only part of the
external schema this component consumes). -/
structure Worker where
  workerid : Int
  deriving DecidableEq, Repr

/-- A Build entity (opaque here; only passed through to child tables). -/
structure Build where
  buildid : Int
  deriving DecidableEq, Repr

/-- The observable state of a data-layer query handle as consumed by the
component: whether `isResolved()` holds and the `array` of results. -/
structure DataQuery (α : Type) where
  resolved : Bool
  array : List α
  deriving DecidableEq, Repr

/-- JavaScript `Number.parseInt` (radix 10), restricted to total behaviour:
skip leading whitespace, optional sign, take the leading run of decimal
digits; `none` (NaN) when there is no digit. -/
def jsParseInt (s : String) : Option Int :=
  let cs := s.data.dropWhile Char.isWhitespace
  let signAndRest : Int × List Char :=
    match cs with
    | '-' :: rest => (-1, rest)
    | '+' :: rest => (1, rest)
    | rest => (1, rest)
  let ds := signAndRest.2.takeWhile Char.isDigit
  if ds.isEmpty then none
  else some (signAndRest.1 * (ds.foldl (fun a c => a * 10 + (c.toNat - 48)) 0 : Nat))

/-- JavaScript `toString()` on a number that may be NaN. -/
def jsNumToString : Option Int → String
  | none => "NaN"
  | some n => toString n

/-- `const workerid = Number.parseInt(useParams().workerid ?? "")`:
the route parameter (absent modelled as `none`) defaulted to the empty
string, then parsed. -/
def parsedWorkerid (routeParam : Option String) : Option Int :=
  jsParseInt (routeParam.getD "")

/-- The filter object of `Worker.getAll(accessor, ...)`: field `id` holds
`workerid.toString()`. -/
structure WorkerFilter where
  id : String
  deriving DecidableEq, Repr

/-- Parameters of the worker-by-id query. -/
def workersQueryFilter (workerid : Option Int) : WorkerFilter :=
  ⟨jsNumToString workerid⟩

/-- The query object of `Build.getAll(accessor, ...)`. -/
structure BuildsQueryParams where
  property : List String
  workerid__eq : Option Int
  limit : Nat
  order : String
  deriving DecidableEq, Repr

/-- Parameters of the builds query, as built in the component:
the fixed property list plus `getBuildLinkDisplayProperties()` (an external
helper, passed in as `displayProps`), the worker-id filter, the current
fetch limit and descending build-id order. -/
def buildsQueryParams (displayProps : List String) (workerid : Option Int)
    (buildsFetchLimit : Nat) : BuildsQueryParams :=
  { property := ["owners", "workername", "branch", "revision"] ++ displayProps
    workerid__eq := workerid
    limit := buildsFetchLimit
    order := "-buildid" }

/-- `const initialBuildsFetchLimit = 100`. -/
def initialBuildsFetchLimit : Nat := 100

/-- Modelled from the spec: `useLoadMoreItemsState` comes from the
`buildbot-ui` package, whose source is not under `src/`; per the spec,
the limit starts at the initial value and each "load more" action
increases it by the increment (both arguments are
`initialBuildsFetchLimit`, i.e. 100) and re-issues the builds query. -/
def loadMoreStep (increment : Nat) (limit : Nat) : Nat := limit + increment

/-- Local UI state of the component: the builds fetch limit and the
optional worker selected for the action modal (`null` is `none`). -/
structure ViewState where
  buildsFetchLimit : Nat
  workerForActions : Option Worker
  deriving DecidableEq, Repr

/-- The component's initial local state: limit 100, no modal target. -/
def initialViewState : ViewState :=
  { buildsFetchLimit := initialBuildsFetchLimit, workerForActions := none }

/-- The `onLoadMoreBuilds` callback: increase the fetch limit. -/
def onLoadMoreBuilds (s : ViewState) : ViewState :=
  { s with buildsFetchLimit := loadMoreStep initialBuildsFetchLimit s.buildsFetchLimit }

/-- Fetch limit after `n` "load more" invocations from the initial state. -/
def limitAfter (n : Nat) : Nat :=
  (onLoadMoreBuilds^[n] initialViewState).buildsFetchLimit

/-- One entry of the `topBarActions` list (the `action` callback's effect
is modelled separately by `onActionsClick`). -/
structure TopbarAction where
  caption : String
  variant : String
  deriving DecidableEq, Repr

/-- The `topBarActions` list built on each render: one "Actions..." entry
is pushed when `workersQuery.isResolved() && workersQuery.array.length >= 1`,
otherwise the list stays empty. -/
def topBarActions (workersQuery : DataQuery Worker) : List TopbarAction :=
  if workersQuery.resolved = true ∧ 1 ≤ workersQuery.array.length then
    [{ caption := "Actions...", variant := "primary" }]
  else []

/-- Whether an action-menu entry captioned "Actions..." is present in the
top bar. -/
def actionsEntryPresent (workersQuery : DataQuery Worker) : Bool :=
  (topBarActions workersQuery).any (fun a => a.caption == "Actions...")

/-- Effect of the "Actions..." entry's `action` callback:
`setWorkerForActions(workersQuery.array[0])`. -/
def onActionsClick (workersQuery : DataQuery Worker) (s : ViewState) : ViewState :=
  { s with workerForActions := workersQuery.array.head? }

/-- Effect of `onWorkerIconClick={(worker) => setWorkerForActions(worker)}`
passed to the workers table. -/
def onWorkerIconClick (worker : Worker) (s : ViewState) : ViewState :=
  { s with workerForActions := some worker }

/-- Effect of the modal's `onClose={() => setWorkerForActions(null)}`. -/
def onModalClose (s : ViewState) : ViewState :=
  { s with workerForActions := none }

/-- The props the component passes to `WorkersTable` that are data (the
query handles for builders/masters are opaque pass-throughs and omitted). -/
structure WorkersTableProps where
  workers : List Worker
  buildsForWorker : Option (List Build)
  deriving DecidableEq, Repr

/-- Data content of one render of the component's JSX tree. -/
structure RenderOutput where
  workersTableProps : WorkersTableProps
  /-- The action modals rendered: the JSX renders one `WorkerActionsModal`
  when `workerForActions !== null` and nothing otherwise. -/
  modals : List Worker
  buildsTableFetchLimit : Nat
  deriving DecidableEq, Repr

/-- One render of the component: workers table fed from the worker query
with `buildsForWorker={null}`, the conditional action modal, and the
builds table with the current fetch limit. The route parameter is part of
the component's closure and is passed here to state that the output shape
does not depend on it. -/
def render (routeParam : Option String) (workersQuery : DataQuery Worker)
    (s : ViewState) : RenderOutput :=
  { workersTableProps := { workers := workersQuery.array, buildsForWorker := none }
    modals := s.workerForActions.toList
    buildsTableFetchLimit := s.buildsFetchLimit }

/-- A route registration record as passed to `reg.registerRoute` (the
`element` render factory is not data and is omitted). -/
structure RouteConfig where
  route : String
  group : String
  deriving DecidableEq, Repr

/-- The module-load side effect: `buildbotSetupPlugin` runs the callback
once, and the callback performs exactly one `registerRoute` call. -/
def moduleLoad (reg : List RouteConfig) : List RouteConfig :=
  reg ++ [{ route := "workers/:workerid", group := "workers" }]

/-- Route registrations performed by one render of the component's body:
none (the render body contains no `registerRoute` call; registration
happens only in the module-level `buildbotSetupPlugin` block). -/
def renderRouteRegs (routeParam : Option String) (workersQuery : DataQuery Worker)
    (s : ViewState) : List RouteConfig := []

/-- The registration table after module load followed by `n` renders of
the component. -/
def regsAfterRenders : Nat → List RouteConfig
  | 0 => moduleLoad []
  | n + 1 =>
    regsAfterRenders n ++
      renderRouteRegs none { resolved := false, array := [] } initialViewState

/-! ## Helper lemmas -/

theorem limitAfter_formula (n : Nat) : limitAfter n = 100 + 100 * n := by
  induction n with
  | zero => rfl
  | succ k ih =>
    unfold limitAfter at ih ⊢
    rw [Function.iterate_succ_apply']
    simp only [onLoadMoreBuilds, loadMoreStep, initialBuildsFetchLimit]
    omega

/-! ## Claim theorems -/

/-- C1 fails as stated: with a resolved worker query holding two records,
the "Actions..." entry is present even though the result array does not
contain exactly one record (the code tests `array.length >= 1`). -/
theorem C1_counterexample :
    ¬ (actionsEntryPresent { resolved := true, array := [⟨1⟩, ⟨2⟩] } = true ↔
        ({ resolved := true, array := [⟨1⟩, ⟨2⟩] } : DataQuery Worker).resolved = true ∧
        ({ resolved := true, array := [⟨1⟩, ⟨2⟩] } : DataQuery Worker).array.length = 1) := by
  decide

/-- C1 (amended): the "Actions..." action-menu entry is present in the top
bar iff the worker query has resolved successfully and its result array
contains at least one record. -/
theorem C1_actionsEntry_iff (q : DataQuery Worker) :
    actionsEntryPresent q = true ↔ (q.resolved = true ∧ 1 ≤ q.array.length) := by
  unfold actionsEntryPresent topBarActions
  split
  case isTrue h => simpa using h
  case isFalse h => simpa using h

/-- C1 witness: the amended equivalence instantiated at a resolved
one-record query. -/
theorem C1_witness :
    actionsEntryPresent { resolved := true, array := [⟨5⟩] } = true :=
  (C1_actionsEntry_iff { resolved := true, array := [⟨5⟩] }).mpr ⟨rfl, by decide⟩

/-- C2: a resolved one-record worker query yields exactly one top-bar
entry captioned "Actions..."; a resolved empty query or a pending query
yields an empty action list. -/
theorem C2_topBarActions_cases (q : DataQuery Worker) :
    (q.resolved = true ∧ q.array.length = 1 →
      topBarActions q = [{ caption := "Actions...", variant := "primary" }]) ∧
    (q.resolved = true ∧ q.array.length = 0 → topBarActions q = []) ∧
    (q.resolved = false → topBarActions q = []) := by
  unfold topBarActions
  refine ⟨fun h => ?_, fun h => ?_, fun h => ?_⟩ <;> split <;> simp_all

/-- C2 witness: the three cases at concrete query states. -/
theorem C2_witness :
    topBarActions { resolved := true, array := [⟨5⟩] } =
      [{ caption := "Actions...", variant := "primary" }] ∧
    topBarActions { resolved := true, array := [] } = [] ∧
    topBarActions { resolved := false, array := [] } = [] :=
  ⟨(C2_topBarActions_cases { resolved := true, array := [⟨5⟩] }).1 ⟨rfl, rfl⟩,
   (C2_topBarActions_cases { resolved := true, array := [] }).2.1 ⟨rfl, rfl⟩,
   (C2_topBarActions_cases { resolved := false, array := [] }).2.2 rfl⟩

/-- C3: after `n` "load more" invocations the builds fetch limit equals
100 + 100·n, each invocation adds exactly 100, the limit is monotone
non-decreasing, unbounded, and the builds query is issued with the
current limit. -/
theorem C3_buildsFetchLimit (n : Nat) :
    limitAfter 0 = 100 ∧
    limitAfter n = 100 + 100 * n ∧
    limitAfter (n + 1) = limitAfter n + 100 ∧
    (∀ m, m ≤ n → limitAfter m ≤ limitAfter n) ∧
    (∀ B, ∃ k, B < limitAfter k) ∧
    (∀ displayProps workerid,
      (buildsQueryParams displayProps workerid (limitAfter n)).limit = limitAfter n) := by
  refine ⟨rfl, limitAfter_formula n, ?_, ?_, ?_, fun _ _ => rfl⟩
  · rw [limitAfter_formula, limitAfter_formula]; ring
  · intro m hm
    rw [limitAfter_formula, limitAfter_formula]
    omega
  · intro B
    refine ⟨B, ?_⟩
    rw [limitAfter_formula]
    omega

/-- C3 witness: concrete limits after zero, one and two invocations. -/
theorem C3_witness :
    limitAfter 2 = 100 + 100 * 2 ∧
    limitAfter 1 ≤ limitAfter 2 ∧
    ∃ k, 1000 < limitAfter k :=
  ⟨(C3_buildsFetchLimit 2).2.1,
   (C3_buildsFetchLimit 2).2.2.2.1 1 (by decide),
   (C3_buildsFetchLimit 0).2.2.2.2.1 1000⟩

/-- C4: clicking "Actions..." sets the modal target to the first resolved
worker (the sole worker when exactly one resolves), closing the modal
clears the target, and the render emits a modal exactly when the target is
non-null — hence at most one modal at a time. -/
theorem C4_modalLifecycle (routeParam : Option String) (q : DataQuery Worker)
    (s : ViewState) (w : Worker) :
    (onActionsClick q s).workerForActions = q.array.head? ∧
    (q.array = [w] → (onActionsClick q s).workerForActions = some w) ∧
    (onModalClose s).workerForActions = none ∧
    (render routeParam q s).modals = s.workerForActions.toList ∧
    ((render routeParam q s).modals ≠ [] ↔ s.workerForActions ≠ none) ∧
    (render routeParam q s).modals.length ≤ 1 := by
  refine ⟨rfl, fun h => by simp [onActionsClick, h], rfl, rfl, ?_, ?_⟩
  · simp only [render]
    cases s.workerForActions <;> simp
  · simp only [render]
    cases s.workerForActions <;> simp

/-- C4 witness: lifecycle at a one-worker query and a concrete state. -/
theorem C4_witness :
    (onActionsClick { resolved := true, array := [⟨7⟩] } initialViewState).workerForActions
      = some ⟨7⟩ ∧
    (onModalClose initialViewState).workerForActions = none :=
  ⟨(C4_modalLifecycle none { resolved := true, array := [⟨7⟩] } initialViewState ⟨7⟩).2.1 rfl,
   (C4_modalLifecycle none { resolved := true, array := [⟨7⟩] } initialViewState ⟨7⟩).2.2.1⟩

/-- C5: for route parameter workerid = "42" the worker query filter is
id = "42" (string) and the builds filter is workerid__eq = 42 (number). -/
theorem C5_consistentIds :
    parsedWorkerid (some "42") = some 42 ∧
    workersQueryFilter (parsedWorkerid (some "42")) = { id := "42" } ∧
    ∀ displayProps limit,
      (buildsQueryParams displayProps (parsedWorkerid (some "42")) limit).workerid__eq
        = some 42 := by
  refine ⟨by decide, by decide, fun _ _ => ?_⟩
  show parsedWorkerid (some "42") = some 42
  decide

/-- C6: the builds query's order is always "-buildid", and its property
list and worker filter do not depend on the fetch limit; only the limit
parameter varies. -/
theorem C6_frameAcrossLimits (displayProps : List String) (workerid : Option Int)
    (l1 l2 : Nat) :
    (buildsQueryParams displayProps workerid l1).order = "-buildid" ∧
    (buildsQueryParams displayProps workerid l1).property
      = (buildsQueryParams displayProps workerid l2).property ∧
    (buildsQueryParams displayProps workerid l1).workerid__eq
      = (buildsQueryParams displayProps workerid l2).workerid__eq ∧
    (buildsQueryParams displayProps workerid l1).limit = l1 :=
  ⟨rfl, rfl, rfl, rfl⟩

/-- C7: a missing route segment or a non-numeric one parses to NaN, which
is used as-is: the worker filter becomes id = "NaN", the builds filter
workerid__eq = NaN, and the render output does not branch on the route
parameter (no local error path). -/
theorem C7_nanPassThrough :
    parsedWorkerid none = none ∧
    jsParseInt "abc" = none ∧
    workersQueryFilter (parsedWorkerid none) = { id := "NaN" } ∧
    workersQueryFilter (jsParseInt "abc") = { id := "NaN" } ∧
    (∀ displayProps limit,
      (buildsQueryParams displayProps (parsedWorkerid none) limit).workerid__eq = none) ∧
    (∀ p1 p2 q s, render p1 q s = render p2 q s) := by
  refine ⟨by decide, by decide, by decide, by decide, fun _ _ => rfl, fun _ _ _ _ => rfl⟩

/-- C8: module load registers exactly one route, with path pattern
"workers/:workerid" and group "workers", and the registration table is
unchanged by any number of renders of the component. -/
theorem C8_routeRegistration (n : Nat) :
    regsAfterRenders n = [{ route := "workers/:workerid", group := "workers" }] ∧
    (regsAfterRenders n).length = 1 := by
  have h : regsAfterRenders n = [{ route := "workers/:workerid", group := "workers" }] := by
    induction n with
    | zero => rfl
    | succ k ih => simpa [regsAfterRenders, renderRouteRegs] using ih
  exact ⟨h, by rw [h]; rfl⟩

/-- C9: clicking a worker's icon in the workers table sets the modal
target to that worker, unconditionally — even when the top-bar entry is
absent, and even when that worker is not the first query result. -/
theorem C9_iconClick (q : DataQuery Worker) (s : ViewState) (w : Worker) :
    (onWorkerIconClick w s).workerForActions = some w ∧
    (topBarActions q = [] → (onWorkerIconClick w s).workerForActions = some w) ∧
    (q.array.head? ≠ some w → (onWorkerIconClick w s).workerForActions ≠ q.array.head?) := by
  refine ⟨rfl, fun _ => rfl, fun h => ?_⟩
  simp only [onWorkerIconClick]
  exact fun hh => h hh.symm

/-- C9 witness: icon click targets worker 3 while the worker query is
unresolved and empty, so the top-bar path is unavailable and the target is
not the first query result. -/
theorem C9_witness :
    (onWorkerIconClick ⟨3⟩ initialViewState).workerForActions = some ⟨3⟩ ∧
    (onWorkerIconClick ⟨3⟩ initialViewState).workerForActions
      ≠ ({ resolved := false, array := [] } : DataQuery Worker).array.head? :=
  ⟨(C9_iconClick { resolved := false, array := [] } initialViewState ⟨3⟩).1,
   (C9_iconClick { resolved := false, array := [] } initialViewState ⟨3⟩).2.2 (by decide)⟩

/-- C10: on every render, whatever the route parameter, query state or
local state, the workers table is passed buildsForWorker = null. -/
theorem C10_buildsForWorkerNull (routeParam : Option String) (q : DataQuery Worker)
    (s : ViewState) :
    (render routeParam q s).workersTableProps.buildsForWorker = none :=
  rfl
